import Mathlib

/-!
Verification development for the GridCols headless data-grid engine.

Each definition below is a shallow embedding of a function of the
TypeScript source (file and line references in the doc comments).
JavaScript numbers are modelled as rationals (`Rat`), with the separate
`JSNum` type adding the `NaN` value where the source can produce it.
Environment-provided primitives (`localeCompare`, `parseFloat`, date
parsing, lower-casing) are parameters bundled in `JSEnv`, since their
behaviour is owned by the JavaScript runtime, not by the repository.
-/

namespace GridCols

/-! ## Row virtualizer (src/unnamed/part_001, `useVirtualizer`, lines 85-124) -/

/-- One entry of the `virtualItems` array: `{ index, offsetTop, size }`. -/
structure VirtualItem where
  index : Nat
  offsetTop : Nat
  size : Nat
deriving Repr, DecidableEq

/-- The record produced by the `useMemo` block of `useVirtualizer`. -/
structure VirtRange where
  virtualItems : List VirtualItem
  startIndex : Nat
  endIndex : Nat
  visibleCount : Nat
deriving Repr, DecidableEq

/-- Ceiling division on naturals, modelling `Math.ceil(a / b)` for the
non-negative integer inputs used by the virtualizer. -/
def cdiv (a b : Nat) : Nat := (a + b - 1) / b

/-- Shallow embedding of the visible-range computation of `useVirtualizer`
(src/unnamed/part_001 lines 85-124).  Inputs are taken as naturals:
`count`, `itemHeight`, `containerHeight`, `scrollTop`, `overscan`.
The early return covers `containerHeight <= 0 || count === 0 ||
itemHeight <= 0`; otherwise `rawStartIndex = floor(scrollTop/itemHeight)`,
`rawVisibleCount = ceil(containerHeight/itemHeight)`,
`start = max(0, rawStartIndex - overscan)` (natural subtraction),
`end = min(count - 1, rawStartIndex + rawVisibleCount + overscan)`, and
the items array lists `(i, i*itemHeight, itemHeight)` for `start <= i <= end`. -/
def computeVisibleRange (count itemHeight containerHeight scrollTop overscan : Nat) :
    VirtRange :=
  if containerHeight = 0 ∨ count = 0 ∨ itemHeight = 0 then
    { virtualItems := [], startIndex := 0, endIndex := 0, visibleCount := 0 }
  else
    let rawStartIndex := scrollTop / itemHeight
    let rawVisibleCount := cdiv containerHeight itemHeight
    let start := rawStartIndex - overscan
    let stop := min (count - 1) (rawStartIndex + rawVisibleCount + overscan)
    { virtualItems :=
        (List.range' start (stop + 1 - start)).map
          (fun i => { index := i, offsetTop := i * itemHeight, size := itemHeight }),
      startIndex := start,
      endIndex := stop,
      visibleCount := rawVisibleCount }

/-! ## Multi-Sort Engine (src/src/hooks/useMultiSort.ts) -/

/-- `SortDirection` without the `null` alternative; the nullable type of
the source is modelled as `Option SortDir`. -/
inductive SortDir where
  | asc
  | desc
deriving Repr, DecidableEq

/-- `ColumnDataType = string | number | boolean | date`. -/
inductive DataType where
  | string
  | number
  | boolean
  | date
deriving Repr, DecidableEq

/-- `MultiSortItem` of useMultiSort.ts (lines 16-27). -/
structure MultiSortItem where
  columnId : String
  accessorKey : String
  dataType : DataType
  direction : Option SortDir
  priority : Nat
deriving Repr, DecidableEq

/-- The `.map((s, i) => ({ ...s, priority: i }))` renumbering used by the
removal paths of useMultiSort.ts. -/
def renumber (l : List MultiSortItem) : List MultiSortItem :=
  l.enum.map (fun p => { p.2 with priority := p.1 })

/-- `toggleSort` of useMultiSort.ts (lines 82-154), as a pure function on
the current sort list.  `findIndex` is modelled by `find?` (the element at
the first matching index). -/
def toggleSort (maxSorts : Nat) (columnId accessorKey : String) (dataType : DataType)
    (additive : Bool) (currentSorts : List MultiSortItem) : List MultiSortItem :=
  match currentSorts.find? (fun s => s.columnId = columnId) with
  | none =>
    if additive then
      if maxSorts ≤ currentSorts.length then
        currentSorts.drop 1 ++
          [{ columnId := columnId, accessorKey := accessorKey, dataType := dataType,
             direction := some SortDir.asc, priority := currentSorts.length }]
      else
        currentSorts ++
          [{ columnId := columnId, accessorKey := accessorKey, dataType := dataType,
             direction := some SortDir.asc, priority := currentSorts.length }]
    else
      [{ columnId := columnId, accessorKey := accessorKey, dataType := dataType,
         direction := some SortDir.asc, priority := 0 }]
  | some existing =>
    if existing.direction = some SortDir.asc then
      currentSorts.map (fun s =>
        if s.columnId = columnId then { s with direction := some SortDir.desc } else s)
    else
      renumber (currentSorts.filter (fun s => ¬ s.columnId = columnId))

/-- `addSort` of useMultiSort.ts (lines 160-191).  A `null` direction or a
duplicate column or a full list leaves the state unchanged. -/
def addSort (maxSorts : Nat) (columnId accessorKey : String) (dataType : DataType)
    (direction : Option SortDir) (currentSorts : List MultiSortItem) : List MultiSortItem :=
  match direction with
  | none => currentSorts
  | some dir =>
    if currentSorts.any (fun s => s.columnId = columnId) then currentSorts
    else if maxSorts ≤ currentSorts.length then currentSorts
    else
      currentSorts ++
        [{ columnId := columnId, accessorKey := accessorKey, dataType := dataType,
           direction := some dir, priority := currentSorts.length }]

/-- `removeSort` of useMultiSort.ts (lines 197-209). -/
def removeSort (columnId : String) (currentSorts : List MultiSortItem) : List MultiSortItem :=
  renumber (currentSorts.filter (fun s => ¬ s.columnId = columnId))

/-- `moveSortPriority` of useMultiSort.ts (lines 224-245): `splice` out the
item at `index`, `splice` it back in at `newPriority` (clamped to the end
when past the end, as in JavaScript), then renumber. -/
def moveSortPriority (columnId : String) (newPriority : Nat)
    (currentSorts : List MultiSortItem) : List MultiSortItem :=
  match currentSorts.findIdx? (fun s => s.columnId = columnId) with
  | none => currentSorts
  | some index =>
    match currentSorts[index]? with
    | none => currentSorts
    | some item =>
      let removed := currentSorts.take index ++ currentSorts.drop (index + 1)
      renumber (removed.take newPriority ++ [item] ++ removed.drop newPriority)

/-- No two entries share a `columnId`. -/
def noDupCols (l : List MultiSortItem) : Prop :=
  (l.map (fun s => s.columnId)).Nodup

/-- Priorities are dense and contiguous `[0..n-1]`. -/
def densePriorities (l : List MultiSortItem) : Prop :=
  l.map (fun s => s.priority) = List.range l.length

instance (l : List MultiSortItem) : Decidable (noDupCols l) := by
  unfold noDupCols; infer_instance

instance (l : List MultiSortItem) : Decidable (densePriorities l) := by
  unfold densePriorities; infer_instance

/-! ## Grid state machine (src/unnamed/part_002, `useGridState` / `gridReducer`) -/

/-- A JavaScript number: either NaN or a (rational-modelled) value. -/
inductive JSNum where
  | nan
  | val (q : Rat)
deriving Repr, DecidableEq

/-- `CellValue = string | number | boolean | null | undefined`
(src/unnamed/part_000 line 11). -/
inductive CellValue where
  | str (s : String)
  | num (n : JSNum)
  | boolean (b : Bool)
  | null
  | undef
deriving Repr, DecidableEq

/-- A row identifier: `string | number`. -/
inductive RowId where
  | str (s : String)
  | num (q : Rat)
deriving Repr, DecidableEq

/-- `CellCoordinate { rowIndex, columnId }` (src/unnamed/part_000). -/
structure CellCoordinate where
  rowIndex : Int
  columnId : String
deriving Repr, DecidableEq

/-- `SelectionMode = none | single | multiple | range`. -/
inductive SelectionMode where
  | none
  | single
  | multiple
  | range
deriving Repr, DecidableEq

/-- `new Set(old); set.add(x)` — JavaScript sets keep insertion order and
ignore re-insertions. -/
def setAdd (l : List RowId) (x : RowId) : List RowId :=
  if x ∈ l then l else l ++ [x]

/-- `set.delete(x)`. -/
def setDelete (l : List RowId) (x : RowId) : List RowId :=
  l.filter (fun y => ¬ y = x)

/-- `new Set(array)` — deduplicating left fold. -/
def setFromArray (xs : List RowId) : List RowId :=
  xs.foldl setAdd []

/-- `SelectionState` (src/unnamed/part_000 lines 152-158), with sets
modelled as insertion-ordered duplicate-free lists and cell keys as the
`rowIndex:columnId` strings the reducer builds. -/
structure SelectionState where
  mode : SelectionMode
  selectedRowIds : List RowId
  selectedCells : List String
  activeCell : Option CellCoordinate
  selectionRange : Option (CellCoordinate × CellCoordinate)
deriving Repr, DecidableEq

/-- `EditState` (src/unnamed/part_000 lines 198-205). -/
structure EditState where
  isEditing : Bool
  cell : Option CellCoordinate
  originalValue : CellValue
  currentValue : CellValue
  isDirty : Bool
deriving Repr, DecidableEq

/-- The non-null `SortState` of the single-column sort of `useGridState`. -/
structure SortState where
  columnId : String
  direction : SortDir
deriving Repr, DecidableEq

/-- `FilterState`, restricted to the fields the reducer reads. -/
structure FilterState where
  columnId : String
  value : CellValue
deriving Repr, DecidableEq

/-- `PendingEdit` (src/unnamed/part_000 lines 207-212). -/
structure PendingEdit where
  rowId : RowId
  columnId : String
  oldValue : CellValue
  newValue : CellValue
  timestamp : Nat
deriving Repr, DecidableEq

/-- `GridState` (src/src/types/state.types.ts lines 22-45). -/
structure GridState where
  sort : Option SortState
  filters : List FilterState
  selection : SelectionState
  edit : EditState
  editHistory : List PendingEdit
  historyIndex : Int
  focusedCell : Option CellCoordinate
  isScrolling : Bool
  columnWidths : List (String × Rat)
deriving Repr, DecidableEq

/-- `PERFORMANCE.MAX_UNDO_HISTORY` (constants/tokens). -/
def MAX_UNDO_HISTORY : Nat := 50

/-- `createInitialGridState` (src/src/types/state.types.ts lines 48-74). -/
def createInitialGridState (initialSort : Option SortState)
    (initialSelection : Option (List RowId)) (selectionMode : SelectionMode) : GridState :=
  { sort := initialSort,
    filters := [],
    selection :=
      { mode := selectionMode,
        selectedRowIds := initialSelection.getD [],
        selectedCells := [],
        activeCell := Option.none,
        selectionRange := Option.none },
    edit :=
      { isEditing := false, cell := Option.none, originalValue := CellValue.null,
        currentValue := CellValue.null, isDirty := false },
    editHistory := [],
    historyIndex := -1,
    focusedCell := Option.none,
    isScrolling := false,
    columnWidths := [] }

/-- `GridAction` (src/src/types/state.types.ts lines 81-126).  The
`EDIT_COMMIT` variant carries the `Date.now()` value the reducer would
read from the environment. -/
inductive GridAction where
  | sortSet (payload : SortState)
  | sortToggle (columnId : String)
  | sortClear
  | selectRow (rowId : RowId) (multi : Bool)
  | deselectRow (rowId : RowId)
  | selectAll (rowIds : List RowId)
  | deselectAll
  | selectRange (startRowId endRowId : RowId) (rowIds : List RowId)
  | setActiveCell (cell : Option CellCoordinate)
  | selectCell (cell : CellCoordinate)
  | selectCellRange (rangeStart rangeEnd : CellCoordinate)
  | editStart (cell : CellCoordinate) (value : CellValue)
  | editChange (value : CellValue)
  | editCommit (rowId : RowId) (columnId : String) (now : Nat)
  | editCancel
  | editUndo
  | editRedo
  | filterSet (payload : FilterState)
  | filterRemove (columnId : String)
  | filterClear
  | setFocusedCell (cell : Option CellCoordinate)
  | setScrolling (scrolling : Bool)
  | setColumnWidth (columnId : String) (width : Rat)
deriving Repr, DecidableEq

/-- The cell key `rowIndex:columnId` built by `SELECT_CELL` /
`SELECT_CELL_RANGE`. -/
def cellKey (rowIndex : Int) (columnId : String) : String :=
  toString rowIndex ++ (":") ++ columnId

/-- `gridReducer` (src/unnamed/part_002 lines 329-640), as a pure
transition function.  Unhandled actions (including `SELECT_RANGE`, which
has no reducer case) fall through to the `default` branch returning the
state unchanged. -/
def gridReducer (state : GridState) (action : GridAction) : GridState :=
  match action with
  | GridAction.sortSet payload => { state with sort := some payload }
  | GridAction.sortToggle columnId =>
    let newDirection : Option SortDir :=
      match state.sort with
      | Option.none => some SortDir.asc
      | some currentSort =>
        if ¬ currentSort.columnId = columnId then some SortDir.asc
        else if currentSort.direction = SortDir.asc then some SortDir.desc
        else Option.none
    { state with
      sort := newDirection.map (fun d => { columnId := columnId, direction := d }) }
  | GridAction.sortClear => { state with sort := Option.none }
  | GridAction.selectRow rowId multi =>
    if state.selection.mode = SelectionMode.none then state
    else
      let newSelectedIds :=
        if state.selection.mode = SelectionMode.single ∨ ¬ multi then
          setAdd [] rowId
        else if rowId ∈ state.selection.selectedRowIds then
          setDelete state.selection.selectedRowIds rowId
        else
          setAdd state.selection.selectedRowIds rowId
      { state with selection := { state.selection with selectedRowIds := newSelectedIds } }
  | GridAction.deselectRow rowId =>
    { state with
      selection :=
        { state.selection with
          selectedRowIds := setDelete state.selection.selectedRowIds rowId } }
  | GridAction.selectAll rowIds =>
    if ¬ state.selection.mode = SelectionMode.multiple then state
    else
      { state with
        selection := { state.selection with selectedRowIds := setFromArray rowIds } }
  | GridAction.deselectAll =>
    { state with
      selection :=
        { state.selection with
          selectedRowIds := [], selectedCells := [], selectionRange := Option.none } }
  | GridAction.selectRange _ _ _ => state
  | GridAction.setActiveCell cell =>
    { state with selection := { state.selection with activeCell := cell } }
  | GridAction.selectCell cell =>
    { state with
      selection :=
        { state.selection with
          selectedCells := [cellKey cell.rowIndex cell.columnId],
          activeCell := some cell } }
  | GridAction.selectCellRange rangeStart rangeEnd =>
    let minRow := min rangeStart.rowIndex rangeEnd.rowIndex
    let maxRow := max rangeStart.rowIndex rangeEnd.rowIndex
    let newSelectedCells :=
      (List.range (maxRow + 1 - minRow).toNat).map
        (fun i => cellKey (minRow + i) rangeStart.columnId)
    { state with
      selection :=
        { state.selection with
          selectedCells := newSelectedCells,
          selectionRange := some (rangeStart, rangeEnd),
          activeCell := some rangeStart } }
  | GridAction.editStart cell value =>
    { state with
      edit :=
        { isEditing := true, cell := some cell, originalValue := value,
          currentValue := value, isDirty := false } }
  | GridAction.editChange value =>
    { state with
      edit :=
        { state.edit with
          currentValue := value,
          isDirty := ¬ state.edit.originalValue = value } }
  | GridAction.editCommit rowId columnId now =>
    if state.edit.isEditing = false ∨ state.edit.cell = Option.none then state
    else
      let newEdit : PendingEdit :=
        { rowId := rowId, columnId := columnId,
          oldValue := state.edit.originalValue,
          newValue := state.edit.currentValue,
          timestamp := now }
      let appended := state.editHistory.take (state.historyIndex + 1).toNat ++ [newEdit]
      let newHistory := appended.drop (appended.length - MAX_UNDO_HISTORY)
      { state with
        edit :=
          { isEditing := false, cell := Option.none, originalValue := CellValue.null,
            currentValue := CellValue.null, isDirty := false },
        editHistory := newHistory,
        historyIndex := (newHistory.length : Int) - 1 }
  | GridAction.editCancel =>
    { state with
      edit :=
        { isEditing := false, cell := Option.none, originalValue := CellValue.null,
          currentValue := CellValue.null, isDirty := false } }
  | GridAction.editUndo =>
    if state.historyIndex < 0 then state
    else { state with historyIndex := state.historyIndex - 1 }
  | GridAction.editRedo =>
    if (state.editHistory.length : Int) - 1 ≤ state.historyIndex then state
    else { state with historyIndex := state.historyIndex + 1 }
  | GridAction.filterSet payload =>
    match state.filters.findIdx? (fun f => f.columnId = payload.columnId) with
    | some existingIndex => { state with filters := state.filters.set existingIndex payload }
    | Option.none => { state with filters := state.filters ++ [payload] }
  | GridAction.filterRemove columnId =>
    { state with filters := state.filters.filter (fun f => ¬ f.columnId = columnId) }
  | GridAction.filterClear => { state with filters := [] }
  | GridAction.setFocusedCell cell => { state with focusedCell := cell }
  | GridAction.setScrolling scrolling => { state with isScrolling := scrolling }
  | GridAction.setColumnWidth columnId width =>
    match state.columnWidths.findIdx? (fun p => p.1 = columnId) with
    | some i => { state with columnWidths := state.columnWidths.set i (columnId, width) }
    | Option.none => { state with columnWidths := state.columnWidths ++ [(columnId, width)] }

/-- The callback part of the `commitEdit` wrapper of `useGridState`
(src/unnamed/part_002 lines 747-756): `onCellChange` is invoked with
`(rowId, columnId, currentValue, originalValue)` whenever
`state.edit.currentValue !== undefined`. -/
def commitEditCall (state : GridState) (rowId : RowId) (columnId : String) :
    Option (RowId × String × CellValue × CellValue) :=
  if ¬ state.edit.currentValue = CellValue.undef then
    some (rowId, columnId, state.edit.currentValue, state.edit.originalValue)
  else
    Option.none

/-- The full `commitEdit` wrapper: the optional `onCellChange` invocation
followed by dispatching `EDIT_COMMIT` to the reducer. -/
def commitEdit (state : GridState) (rowId : RowId) (columnId : String) (now : Nat) :
    Option (RowId × String × CellValue × CellValue) × GridState :=
  (commitEditCall state rowId columnId,
   gridReducer state (GridAction.editCommit rowId columnId now))

/-- The selection invariant of the spec: under mode `none` the
selected-row-id set is empty, under mode `single` it has size at most
one. -/
def selInvariant (s : GridState) : Prop :=
  (s.selection.mode = SelectionMode.none → s.selection.selectedRowIds = []) ∧
  (s.selection.mode = SelectionMode.single → s.selection.selectedRowIds.length ≤ 1)

instance (s : GridState) : Decidable (selInvariant s) := by
  unfold selInvariant; infer_instance

/-! ## Undo/Redo history (src/src/hooks/useUndoRedoHistory.ts) -/

/-- `UndoableAction` (useUndoRedoHistory.ts lines 23-36); the generic
previous/next payloads are modelled as naturals. -/
structure UndoableAction where
  actionType : String
  description : String
  previousState : Nat
  nextState : Nat
  timestamp : Nat
  batchId : Option String
deriving Repr, DecidableEq

/-- The `history` array and `historyIndex` cursor of `useUndoRedo`. -/
structure HistoryState where
  history : List UndoableAction
  historyIndex : Int
deriving Repr, DecidableEq

/-- Initial history: empty list, cursor `-1`. -/
def initialHistory : HistoryState := { history := [], historyIndex := -1 }

/-- `pushAction` (useUndoRedoHistory.ts lines 112-141): truncate the redo
tail, append the new action tagged with the open batch id, trim to
`maxHistorySize` from the front, and advance the cursor clamped to
`maxHistorySize - 1`. -/
def pushAction (maxHistorySize : Nat) (batchRef : Option String) (now : Nat)
    (actionType description : String) (previousState nextState : Nat)
    (s : HistoryState) : HistoryState :=
  let newAction : UndoableAction :=
    { actionType := actionType, description := description,
      previousState := previousState, nextState := nextState,
      timestamp := now, batchId := batchRef }
  let appended := s.history.take (s.historyIndex + 1).toNat ++ [newAction]
  let newHistory :=
    if maxHistorySize < appended.length then
      appended.drop (appended.length - maxHistorySize)
    else appended
  { history := newHistory,
    historyIndex := min (s.historyIndex + 1) ((maxHistorySize : Int) - 1) }

/-- `history[j]?.batchId === action.batchId` for a truthy (non-empty)
batch id `bid`. -/
def batchMatch (history : List UndoableAction) (bid : String) (j : Nat) : Bool :=
  match history[j]? with
  | some a => a.batchId = some bid
  | Option.none => false

/-- The `while (batchStartIndex > 0 && ...) batchStartIndex--` scan of
`undo` (useUndoRedoHistory.ts lines 156-162), from index `i` downward. -/
def batchStartIdx (history : List UndoableAction) (bid : String) : Nat → Nat
  | 0 => 0
  | i + 1 => if batchMatch history bid i then batchStartIdx history bid i else i + 1

/-- `undo` (useUndoRedoHistory.ts lines 147-180).  Returns the new state,
the list of actions reported through `onUndo` in call order, and the
return value.  A falsy (`undefined` or empty) batch id takes the
single-action path. -/
def historyUndo (s : HistoryState) : HistoryState × List UndoableAction × Option UndoableAction :=
  if s.historyIndex < 0 then (s, [], Option.none)
  else
    match s.history[s.historyIndex.toNat]? with
    | Option.none => (s, [], Option.none)
    | some action =>
      match action.batchId with
      | some bid =>
        if bid = "" then
          ({ s with historyIndex := s.historyIndex - 1 }, [action], some action)
        else
          let bstart := batchStartIdx s.history bid s.historyIndex.toNat
          let reported :=
            (List.range (s.historyIndex.toNat + 1 - bstart)).filterMap
              (fun k => s.history[s.historyIndex.toNat - k]?)
          ({ s with historyIndex := (bstart : Int) - 1 }, reported, s.history[bstart]?)
      | Option.none =>
        ({ s with historyIndex := s.historyIndex - 1 }, [action], some action)

/-! ## Keyboard navigator (src/src/hooks/useKeyboardNav.ts) -/

/-- A column as the navigator sees it: id and the optional `visible`
flag. -/
structure NavColumn where
  id : String
  visible : Option Bool
deriving Repr, DecidableEq

/-- `columns.filter((col) => col.visible !== false)` (line 76). -/
def visibleColumns (columns : List NavColumn) : List NavColumn :=
  columns.filter (fun c => ¬ c.visible = some false)

/-- `getColumnIdAtIndex` (lines 90-96); a negative index reads as a
missing JavaScript array entry. -/
def colIdAt (visCols : List NavColumn) (i : Int) : Option String :=
  if 0 ≤ i then (visCols[i.toNat]?).map (fun c => c.id) else Option.none

/-- `getColumnIndex` (lines 83-88): `findIndex`, `-1` when absent. -/
def getColumnIndex (visCols : List NavColumn) (columnId : String) : Int :=
  match visCols.findIdx? (fun c => c.id = columnId) with
  | some i => (i : Int)
  | Option.none => -1

/-- `clampRow` (lines 98-103). -/
def clampRow (rowCount : Nat) (row : Int) : Int :=
  max 0 (min row ((rowCount : Int) - 1))

/-- `clampColumn` (lines 105-110). -/
def clampColumn (columnCount : Nat) (col : Int) : Int :=
  max 0 (min col ((columnCount : Int) - 1))

/-- `moveCell` (useKeyboardNav.ts lines 116-167) as a pure function: the
resulting active cell and the requested scroll-to row.  `isTab` is the
`event?.key === TAB` test. -/
def moveCell (rowCount : Nat) (visCols : List NavColumn)
    (activeCell : Option CellCoordinate) (rowDelta colDelta : Int) (isTab : Bool) :
    Option CellCoordinate × Option Int :=
  let columnCount := visCols.length
  if activeCell = Option.none ∨ rowCount = 0 ∨ columnCount = 0 then
    match colIdAt visCols 0 with
    | some firstColumnId => (some { rowIndex := 0, columnId := firstColumnId }, Option.none)
    | Option.none => (activeCell, Option.none)
  else
    match activeCell with
    | Option.none => (activeCell, Option.none)
    | some cell =>
      let currentColIndex := getColumnIndex visCols cell.columnId
      if currentColIndex = -1 then (activeCell, Option.none)
      else
        let clampedRow := clampRow rowCount (cell.rowIndex + rowDelta)
        let clampedCol := clampColumn columnCount (currentColIndex + colDelta)
        let moved :=
          if isTab then
            if 0 < colDelta ∧ currentColIndex = (columnCount : Int) - 1 then
              if cell.rowIndex < (rowCount : Int) - 1 then
                (cell.rowIndex + 1, (0 : Int))
              else (clampedRow, clampedCol)
            else if colDelta < 0 ∧ currentColIndex = 0 then
              if 0 < cell.rowIndex then
                (cell.rowIndex - 1, (columnCount : Int) - 1)
              else (clampedRow, clampedCol)
            else (clampedRow, clampedCol)
          else (clampedRow, clampedCol)
        match colIdAt visCols moved.2 with
        | some newColumnId =>
          (some { rowIndex := moved.1, columnId := newColumnId }, some moved.1)
        | Option.none => (activeCell, Option.none)

/-- The logical keys the navigator distinguishes. -/
inductive Key where
  | arrowUp
  | arrowDown
  | arrowLeft
  | arrowRight
  | tab
  | pageUp
  | pageDown
  | keyHome
  | keyEnd
  | enter
  | f2
  | escape
  | space
  | keyA
  | other
deriving Repr, DecidableEq

/-- The observable effects of one `onKeyDown` call: the resulting active
cell, a scroll-into-view request, and the edit/selection callbacks. -/
structure KeyEffects where
  activeCell : Option CellCoordinate
  scrollTo : Option Int
  startEditReq : Bool
  commitReq : Bool
  cancelReq : Bool
  selectRowReq : Option (Int × Bool)
deriving Repr, DecidableEq

/-- `onKeyDown` (useKeyboardNav.ts lines 173-327) as a pure function over
the logical key and modifier state. -/
def onKeyDown (enabled isEditing : Bool) (rowCount : Nat) (columns : List NavColumn)
    (activeCell : Option CellCoordinate) (pageSize : Nat)
    (key : Key) (shiftKey ctrlMeta : Bool) : KeyEffects :=
  let visCols := visibleColumns columns
  let columnCount := visCols.length
  let noEff : KeyEffects :=
    { activeCell := activeCell, scrollTo := Option.none, startEditReq := false,
      commitReq := false, cancelReq := false, selectRowReq := Option.none }
  let mv := fun (rowDelta colDelta : Int) (isTab : Bool) (extra : KeyEffects → KeyEffects) =>
    let r := moveCell rowCount visCols activeCell rowDelta colDelta isTab
    extra { noEff with activeCell := r.1, scrollTo := r.2 }
  if enabled = false then noEff
  else if isEditing then
    match key with
    | Key.escape => { noEff with cancelReq := true }
    | Key.enter => mv 1 0 false (fun e => { e with commitReq := true })
    | Key.tab => mv 0 (if shiftKey then -1 else 1) true (fun e => { e with commitReq := true })
    | Key.arrowUp => noEff
    | Key.arrowDown => noEff
    | Key.arrowLeft => noEff
    | Key.arrowRight => noEff
    | Key.pageUp => noEff
    | Key.pageDown => noEff
    | Key.keyHome => noEff
    | Key.keyEnd => noEff
    | Key.f2 => noEff
    | Key.space => noEff
    | Key.keyA => noEff
    | Key.other => noEff
  else
    match key with
    | Key.arrowUp => mv (-1) 0 false id
    | Key.arrowDown => mv 1 0 false id
    | Key.arrowLeft => mv 0 (-1) false id
    | Key.arrowRight => mv 0 1 false id
    | Key.tab => mv 0 (if shiftKey then -1 else 1) true id
    | Key.pageUp => mv (-(pageSize : Int)) 0 false id
    | Key.pageDown => mv (pageSize : Int) 0 false id
    | Key.keyHome =>
      if ctrlMeta then
        match colIdAt visCols 0 with
        | some firstColId =>
          { noEff with
            activeCell := some { rowIndex := 0, columnId := firstColId },
            scrollTo := some 0 }
        | Option.none => noEff
      else
        match colIdAt visCols 0, activeCell with
        | some firstColId, some cell =>
          { noEff with
            activeCell := some { rowIndex := cell.rowIndex, columnId := firstColId } }
        | _, _ => noEff
    | Key.keyEnd =>
      if ctrlMeta then
        match colIdAt visCols ((columnCount : Int) - 1) with
        | some lastColId =>
          { noEff with
            activeCell := some { rowIndex := (rowCount : Int) - 1, columnId := lastColId },
            scrollTo := some ((rowCount : Int) - 1) }
        | Option.none => noEff
      else
        match colIdAt visCols ((columnCount : Int) - 1), activeCell with
        | some lastColId, some cell =>
          { noEff with
            activeCell := some { rowIndex := cell.rowIndex, columnId := lastColId } }
        | _, _ => noEff
    | Key.enter => { noEff with startEditReq := true }
    | Key.f2 => { noEff with startEditReq := true }
    | Key.space =>
      match activeCell with
      | some cell => { noEff with selectRowReq := some (cell.rowIndex, shiftKey) }
      | Option.none => noEff
    | Key.keyA => noEff
    | Key.escape => noEff
    | Key.other => noEff

/-! ## Comparator library (src/src/utils/comparators.ts) -/

/-- The JavaScript-runtime primitives the comparator library calls.
Their behaviour belongs to the runtime, not to the repository, so they
are parameters of the embedding: `strCmp` is `String.localeCompare`,
`lower` is `toLowerCase`, `parseFloat` and `dateParse` are the numeric
and `new Date(...).getTime()` string parses, and `numToString` is the
number-to-string coercion. -/
structure JSEnv where
  strCmp : String → String → Rat
  lower : String → String
  parseFloat : String → JSNum
  dateParse : String → JSNum
  numToString : JSNum → String

/-- `String(v)` for a cell value. -/
def jsToString (env : JSEnv) (v : CellValue) : String :=
  match v with
  | CellValue.str s => s
  | CellValue.num n => env.numToString n
  | CellValue.boolean b => if b then ("true") else ("false")
  | CellValue.null => ("null")
  | CellValue.undef => ("undefined")

/-- `a == null` (loose equality: null or undefined). -/
def isNullish (v : CellValue) : Bool :=
  match v with
  | CellValue.null => true
  | CellValue.undef => true
  | _ => false

/-- `typeof a === 'number' ? a : parseFloat(String(a))`
(comparators.ts lines 63-64). -/
def jsToNumber (env : JSEnv) (v : CellValue) : JSNum :=
  match v with
  | CellValue.num n => n
  | v => env.parseFloat (jsToString env v)

/-- `Boolean(v)` truthiness. -/
def truthy (v : CellValue) : Bool :=
  match v with
  | CellValue.str s => ¬ s = ""
  | CellValue.num JSNum.nan => false
  | CellValue.num (JSNum.val q) => ¬ q = 0
  | CellValue.boolean b => b
  | CellValue.null => false
  | CellValue.undef => false

/-- The `toDate(...).getTime()` of `compareDates` (comparators.ts lines
89-101): numbers are timestamps, everything else goes through the date
parser on `String(val ?? '')`. -/
def dateKey (env : JSEnv) (v : CellValue) : JSNum :=
  match v with
  | CellValue.num n => n
  | CellValue.null => env.dateParse ("")
  | CellValue.undef => env.dateParse ("")
  | v => env.dateParse (jsToString env v)

/-- `compareNumbers` (comparators.ts lines 62-71) on non-null values. -/
def compareNumbers (env : JSEnv) (a b : CellValue) : Rat :=
  match jsToNumber env a, jsToNumber env b with
  | JSNum.nan, JSNum.nan => 0
  | JSNum.nan, JSNum.val _ => 1
  | JSNum.val _, JSNum.nan => -1
  | JSNum.val x, JSNum.val y => x - y

/-- `compareBooleans` (comparators.ts lines 76-82). -/
def compareBooleans (a b : CellValue) : Rat :=
  if truthy a = truthy b then 0 else if truthy a then -1 else 1

/-- `compareDates` (comparators.ts lines 89-108). -/
def compareDates (env : JSEnv) (a b : CellValue) : Rat :=
  match dateKey env a, dateKey env b with
  | JSNum.nan, JSNum.nan => 0
  | JSNum.nan, JSNum.val _ => 1
  | JSNum.val _, JSNum.nan => -1
  | JSNum.val x, JSNum.val y => x - y

/-- `compareStrings` (comparators.ts lines 53-57). -/
def compareStrings (env : JSEnv) (a b : CellValue) : Rat :=
  env.strCmp (env.lower (jsToString env a)) (env.lower (jsToString env b))

/-- The type dispatch of `createComparator` (comparators.ts lines
27-44). -/
def typeCompare (env : JSEnv) (dt : DataType) (a b : CellValue) : Rat :=
  match dt with
  | DataType.number => compareNumbers env a b
  | DataType.boolean => compareBooleans a b
  | DataType.date => compareDates env a b
  | DataType.string => compareStrings env a b

/-- `createComparator` (comparators.ts lines 13-48): null/undefined sort
to the end before the type dispatch, whose result is multiplied by the
direction. -/
def createComparator (env : JSEnv) (dt : DataType) (dir : Option SortDir)
    (a b : CellValue) : Rat :=
  let multiplier : Rat := if dir = some SortDir.desc then -1 else 1
  if isNullish a && isNullish b then 0
  else if isNullish a then 1
  else if isNullish b then -1
  else typeCompare env dt a b * multiplier

/-- A data row: an association of accessor keys to cell values; a missing
key reads as `undefined`. -/
def Row : Type := List (String × CellValue)

instance : DecidableEq Row := by
  unfold Row; infer_instance

/-- `row[accessorKey]`. -/
def rowGet (r : Row) (k : String) : CellValue :=
  match r.find? (fun p => p.1 = k) with
  | some p => p.2
  | Option.none => CellValue.undef

/-- One entry of the `sorts` array passed to `multiSort`
(comparators.ts lines 135-139). -/
structure SortSpec where
  accessorKey : String
  dataType : DataType
  direction : Option SortDir
deriving Repr, DecidableEq

/-- The per-spec comparator built by `multiSort`. -/
def specComparator (env : JSEnv) (s : SortSpec) : Row → Row → Rat :=
  fun a b =>
    createComparator env s.dataType s.direction (rowGet a s.accessorKey) (rowGet b s.accessorKey)

/-- The first-non-zero composite of a comparator list — the loop inside
`multiSort`'s sort callback (comparators.ts lines 148-157). -/
def lexCompare {α : Type} (cmps : List (α → α → Rat)) (a b : α) : Rat :=
  match cmps with
  | [] => 0
  | c :: rest => if c a b = 0 then lexCompare rest a b else c a b

/-- `multiSort` (comparators.ts lines 133-158): copy, then the ECMAScript
stable `Array.prototype.sort` with the composite comparator, modelled by
the stable `List.mergeSort` on `comparator ≤ 0`. -/
def multiSortJS (env : JSEnv) (data : List Row) (sorts : List SortSpec) : List Row :=
  if sorts.length = 0 then data
  else
    data.mergeSort (fun a b =>
      decide (lexCompare (sorts.map (specComparator env)) a b ≤ 0))

/-- `MultiSortItem` to the `multiSort` spec shape (useMultiSort.ts lines
284-288). -/
def toSpec (s : MultiSortItem) : SortSpec :=
  { accessorKey := s.accessorKey, dataType := s.dataType, direction := s.direction }

/-- `sortData` of `useMultiSort` (useMultiSort.ts lines 278-292). -/
def sortDataJS (env : JSEnv) (sorts : List MultiSortItem) (data : List Row) : List Row :=
  if sorts.length = 0 then data
  else multiSortJS env data (sorts.map toSpec)

/-- The sign laws a JavaScript sort comparator must satisfy to define a
total preorder: antisymmetric sign flip and transitivity of the strict
and the zero relation in all mixed forms. `String.localeCompare`
satisfies them. -/
structure IsCmp {α : Type} (c : α → α → Rat) : Prop where
  flip : ∀ a b, 0 < c a b ↔ c b a < 0
  zero : ∀ a b, c a b = 0 → c b a = 0
  trans_lt : ∀ a b d, c a b < 0 → c b d < 0 → c a d < 0
  trans_eq : ∀ a b d, c a b = 0 → c b d = 0 → c a d = 0
  eq_lt : ∀ a b d, c a b = 0 → c b d < 0 → c a d < 0
  lt_eq : ∀ a b d, c a b < 0 → c b d = 0 → c a d < 0

/-- A comparator whose sign agrees with a rank function into a linear
order. -/
def RankedBy {α γ : Type} [LinearOrder γ] (c : α → α → Rat) (f : α → γ) : Prop :=
  ∀ a b, (c a b < 0 ↔ f a < f b) ∧ (c a b = 0 ↔ f a = f b)

/-- A concrete environment for closed evaluations: the locale comparison
collapses (all strings equal), `parseFloat` and the date parse return NaN
(their value on non-numeric inputs such as `abc`). -/
def trivEnv : JSEnv :=
  { strCmp := fun _ _ => 0,
    lower := id,
    parseFloat := fun _ => JSNum.nan,
    dateParse := fun _ => JSNum.nan,
    numToString := fun _ => "" }

/-- A rank-agreeing comparator satisfies the comparator laws. -/
theorem rankedBy_isCmp {α γ : Type} [LinearOrder γ] (c : α → α → Rat) (f : α → γ)
    (h : RankedBy c f) : IsCmp c := by
  have hpos : ∀ a b, 0 < c a b ↔ f b < f a := by
    intro a b
    constructor
    · intro hc
      rcases lt_trichotomy (f a) (f b) with h3 | h3 | h3
      · exact absurd ((h a b).1.mpr h3) (by linarith)
      · exact absurd ((h a b).2.mpr h3) (by linarith)
      · exact h3
    · intro hf
      rcases lt_trichotomy (c a b) 0 with h3 | h3 | h3
      · exact absurd ((h a b).1.mp h3) (lt_asymm hf)
      · exact absurd ((h a b).2.mp h3) (ne_of_gt hf)
      · exact h3
  refine ⟨?_, ?_, ?_, ?_, ?_, ?_⟩
  · intro a b
    rw [hpos a b, (h b a).1]
  · intro a b hab
    exact (h b a).2.mpr ((h a b).2.mp hab).symm
  · intro a b d hab hbd
    exact (h a d).1.mpr (lt_trans ((h a b).1.mp hab) ((h b d).1.mp hbd))
  · intro a b d hab hbd
    exact (h a d).2.mpr (((h a b).2.mp hab).trans ((h b d).2.mp hbd))
  · intro a b d hab hbd
    exact (h a d).1.mpr (((h a b).2.mp hab) ▸ ((h b d).1.mp hbd))
  · intro a b d hab hbd
    exact (h a d).1.mpr (((h b d).2.mp hbd) ▸ ((h a b).1.mp hab))

/-- The comparator laws are preserved by precomposition. -/
theorem isCmp_precomp {α β : Type} (c : β → β → Rat) (g : α → β) (h : IsCmp c) :
    IsCmp (fun a b => c (g a) (g b)) :=
  ⟨fun a b => h.flip (g a) (g b),
   fun a b => h.zero (g a) (g b),
   fun a b d => h.trans_lt (g a) (g b) (g d),
   fun a b d => h.trans_eq (g a) (g b) (g d),
   fun a b d => h.eq_lt (g a) (g b) (g d),
   fun a b d => h.lt_eq (g a) (g b) (g d)⟩

/-- The comparator laws are preserved by sign reversal. -/
theorem isCmp_neg {α : Type} (c : α → α → Rat) (h : IsCmp c) :
    IsCmp (fun a b => c a b * (-1)) := by
  have hdual : ∀ a b, c a b < 0 ↔ 0 < c b a := by
    intro a b
    exact (h.flip b a).symm
  refine ⟨?_, ?_, ?_, ?_, ?_, ?_⟩
  · intro a b
    constructor
    · intro hc
      have h1 : c a b < 0 := by linarith [mul_pos_iff.mp hc]
      nlinarith [(hdual a b).mp h1]
    · intro hc
      have h1 : 0 < c b a := by nlinarith
      have h2 : c a b < 0 := (h.flip b a).mp h1
      nlinarith
  · intro a b hab
    have h1 : c a b = 0 := by linarith [mul_eq_zero.mp (by linarith : c a b * (-1) = 0)]
    have := h.zero a b h1
    simp [this]
  · intro a b d hab hbd
    have h1 : 0 < c a b := by nlinarith
    have h2 : 0 < c b d := by nlinarith
    have h3 : c b a < 0 := (h.flip a b).mp h1
    have h4 : c d b < 0 := (h.flip b d).mp h2
    have h5 : c d a < 0 := h.trans_lt d b a h4 h3
    have h6 : 0 < c a d := (h.flip a d).mpr h5
    nlinarith
  · intro a b d hab hbd
    have h1 : c a b = 0 := by nlinarith
    have h2 : c b d = 0 := by nlinarith
    have := h.trans_eq a b d h1 h2
    simp [this]
  · intro a b d hab hbd
    have h1 : c a b = 0 := by nlinarith
    have h2 : 0 < c b d := by nlinarith
    have h3 : c d b < 0 := (h.flip b d).mp h2
    have h4 : c b a = 0 := h.zero a b h1
    have h5 : c d a < 0 := h.lt_eq d b a h3 h4
    have h6 : 0 < c a d := (h.flip a d).mpr h5
    nlinarith
  · intro a b d hab hbd
    have h1 : 0 < c a b := by nlinarith
    have h2 : c b d = 0 := by nlinarith
    have h3 : c b a < 0 := (h.flip a b).mp h1
    have h4 : c d b = 0 := h.zero b d h2
    have h5 : c d a < 0 := h.eq_lt d b a h4 h3
    have h6 : 0 < c a d := (h.flip a d).mpr h5
    nlinarith

/-- The null/undefined wrapper of `createComparator` preserves the
comparator laws. -/
theorem nullWrap_isCmp (c : CellValue → CellValue → Rat) (h : IsCmp c) :
    IsCmp (fun a b =>
      if isNullish a && isNullish b then 0
      else if isNullish a then 1
      else if isNullish b then -1
      else c a b) := by
  refine ⟨?_, ?_, ?_, ?_, ?_, ?_⟩
  · intro a b
    cases hna : isNullish a <;> cases hnb : isNullish b <;> simp [hna, hnb]
    exact h.flip a b
  · intro a b
    cases hna : isNullish a <;> cases hnb : isNullish b <;> simp [hna, hnb]
    exact h.zero a b
  · intro a b d
    cases hna : isNullish a <;> cases hnb : isNullish b <;> cases hnd : isNullish d <;>
      simp [hna, hnb, hnd]
    exact h.trans_lt a b d
  · intro a b d
    cases hna : isNullish a <;> cases hnb : isNullish b <;> cases hnd : isNullish d <;>
      simp [hna, hnb, hnd]
    exact h.trans_eq a b d
  · intro a b d
    cases hna : isNullish a <;> cases hnb : isNullish b <;> cases hnd : isNullish d <;>
      simp [hna, hnb, hnd]
    exact h.eq_lt a b d
  · intro a b d
    cases hna : isNullish a <;> cases hnb : isNullish b <;> cases hnd : isNullish d <;>
      simp [hna, hnb, hnd]
    exact h.lt_eq a b d

/-- `compareNumbers` agrees with the rank `reals < NaN` (NaN modelled as
the top element). -/
theorem compareNumbers_rankedBy (env : JSEnv) :
    RankedBy (compareNumbers env)
      (fun v => match jsToNumber env v with
        | JSNum.nan => (⊤ : WithTop Rat)
        | JSNum.val q => (q : WithTop Rat)) := by
  intro a b
  rcases ha : jsToNumber env a with _ | x <;> rcases hb : jsToNumber env b with _ | y <;>
    constructor <;> simp [compareNumbers, ha, hb]
  exact sub_eq_zero

/-- `compareDates` agrees with the same rank on the date keys. -/
theorem compareDates_rankedBy (env : JSEnv) :
    RankedBy (compareDates env)
      (fun v => match dateKey env v with
        | JSNum.nan => (⊤ : WithTop Rat)
        | JSNum.val q => (q : WithTop Rat)) := by
  intro a b
  rcases ha : dateKey env a with _ | x <;> rcases hb : dateKey env b with _ | y <;>
    constructor <;> simp [compareDates, ha, hb]
  exact sub_eq_zero

/-- `compareBooleans` agrees with the rank `true < false` on
truthiness. -/
theorem compareBooleans_rankedBy :
    RankedBy compareBooleans (fun v => if truthy v then (0 : Nat) else 1) := by
  intro a b
  cases hta : truthy a <;> cases htb : truthy b <;>
    constructor <;> simp [compareBooleans, hta, htb]

/-- All four per-type comparators satisfy the comparator laws, provided
the locale string comparison does. -/
theorem typeCompare_isCmp (env : JSEnv) (dt : DataType) (hstr : IsCmp env.strCmp) :
    IsCmp (typeCompare env dt) := by
  cases dt with
  | number => exact rankedBy_isCmp _ _ (compareNumbers_rankedBy env)
  | date => exact rankedBy_isCmp _ _ (compareDates_rankedBy env)
  | boolean => exact rankedBy_isCmp _ _ compareBooleans_rankedBy
  | string =>
    exact isCmp_precomp env.strCmp (fun v => env.lower (jsToString env v)) hstr

/-- `createComparator` satisfies the comparator laws for every data type
and direction, provided the locale string comparison does. -/
theorem createComparator_isCmp (env : JSEnv) (dt : DataType) (dir : Option SortDir)
    (hstr : IsCmp env.strCmp) : IsCmp (createComparator env dt dir) := by
  have hmul : IsCmp (fun a b =>
      typeCompare env dt a b * (if dir = some SortDir.desc then (-1 : Rat) else 1)) := by
    by_cases hdir : dir = some SortDir.desc
    · simp only [hdir, if_pos]
      have := isCmp_neg (typeCompare env dt) (typeCompare_isCmp env dt hstr)
      simpa using this
    · simp only [hdir, if_false, mul_one]
      exact typeCompare_isCmp env dt hstr
  have heq : createComparator env dt dir = fun a b =>
      if isNullish a && isNullish b then 0
      else if isNullish a then 1
      else if isNullish b then -1
      else typeCompare env dt a b * (if dir = some SortDir.desc then (-1 : Rat) else 1) := by
    funext a b
    simp only [createComparator]
  rw [heq]
  exact nullWrap_isCmp _ hmul

/-- The first-non-zero composite of law-abiding comparators abides by
the laws. -/
theorem lexCompare_isCmp {α : Type} (cmps : List (α → α → Rat))
    (h : ∀ c ∈ cmps, IsCmp c) : IsCmp (lexCompare cmps) := by
  induction cmps with
  | nil =>
    refine ⟨?_, ?_, ?_, ?_, ?_, ?_⟩ <;> intro a b <;> simp [lexCompare]
  | cons c rest ih =>
    have hc : IsCmp c := h c (List.mem_cons_self c rest)
    have hrest : IsCmp (lexCompare rest) := ih (fun x hx => h x (List.mem_cons_of_mem c hx))
    refine ⟨?_, ?_, ?_, ?_, ?_, ?_⟩
    · intro a b
      by_cases hab : c a b = 0
      · have hba : c b a = 0 := hc.zero a b hab
        simp only [lexCompare, hab, hba, if_pos]
        exact hrest.flip a b
      · have hba : ¬ c b a = 0 := fun hz => hab (hc.zero b a hz)
        simp only [lexCompare, hab, hba, if_neg, if_false]
        exact hc.flip a b
    · intro a b hz
      by_cases hab : c a b = 0
      · have hba : c b a = 0 := hc.zero a b hab
        simp only [lexCompare, hab, hba, if_pos] at hz ⊢
        exact hrest.zero a b hz
      · simp only [lexCompare, hab, if_neg, if_false] at hz
    · intro a b d h1 h2
      by_cases hab : c a b = 0 <;> by_cases hbd : c b d = 0
      · have had : c a d = 0 := hc.trans_eq a b d hab hbd
        simp only [lexCompare, hab, hbd, had, if_pos] at h1 h2 ⊢
        exact hrest.trans_lt a b d h1 h2
      · simp only [lexCompare, hab, hbd, if_pos, if_neg, if_false] at h1 h2
        have had : c a d < 0 := hc.eq_lt a b d hab h2
        simp only [lexCompare, ne_of_lt had, if_neg, if_false]
        exact had
      · simp only [lexCompare, hab, hbd, if_pos, if_neg, if_false] at h1 h2
        have had : c a d < 0 := hc.lt_eq a b d h1 hbd
        simp only [lexCompare, ne_of_lt had, if_neg, if_false]
        exact had
      · simp only [lexCompare, hab, hbd, if_neg, if_false] at h1 h2
        have had : c a d < 0 := hc.trans_lt a b d h1 h2
        simp only [lexCompare, ne_of_lt had, if_neg, if_false]
        exact had
    · intro a b d h1 h2
      by_cases hab : c a b = 0 <;> by_cases hbd : c b d = 0
      · have had : c a d = 0 := hc.trans_eq a b d hab hbd
        simp only [lexCompare, hab, hbd, had, if_pos] at h1 h2 ⊢
        exact hrest.trans_eq a b d h1 h2
      · simp only [lexCompare, hab, hbd, if_pos, if_neg, if_false] at h1 h2
      · simp only [lexCompare, hab, if_neg, if_false] at h1
      · simp only [lexCompare, hab, if_neg, if_false] at h1
    · intro a b d h1 h2
      by_cases hab : c a b = 0
      · by_cases hbd : c b d = 0
        · have had : c a d = 0 := hc.trans_eq a b d hab hbd
          simp only [lexCompare, hab, hbd, had, if_pos] at h1 h2 ⊢
          exact hrest.eq_lt a b d h1 h2
        · simp only [lexCompare, hab, hbd, if_pos, if_neg, if_false] at h1 h2
          have had : c a d < 0 := hc.eq_lt a b d hab h2
          simp only [lexCompare, ne_of_lt had, if_neg, if_false]
          exact had
      · simp only [lexCompare, hab, if_neg, if_false] at h1
    · intro a b d h1 h2
      by_cases hbd : c b d = 0
      · by_cases hab : c a b = 0
        · have had : c a d = 0 := hc.trans_eq a b d hab hbd
          simp only [lexCompare, hab, hbd, had, if_pos] at h1 h2 ⊢
          exact hrest.lt_eq a b d h1 h2
        · simp only [lexCompare, hab, hbd, if_pos, if_neg, if_false] at h1 h2
          have had : c a d < 0 := hc.lt_eq a b d h1 hbd
          simp only [lexCompare, ne_of_lt had, if_neg, if_false]
          exact had
      · simp only [lexCompare, hbd, if_neg, if_false] at h2

/-- Renumbering keeps the column ids. -/
theorem renumber_cols (l : List MultiSortItem) :
    (renumber l).map (fun s => s.columnId) = l.map (fun s => s.columnId) := by
  unfold renumber
  rw [List.map_map]
  conv_rhs => rw [← List.enum_map_snd l, List.map_map]
  rfl

/-- Renumbering keeps the length. -/
theorem renumber_length (l : List MultiSortItem) :
    (renumber l).length = l.length := by
  simp [renumber]

/-- Renumbering produces the priorities `0, 1, ..., n-1`. -/
theorem renumber_priorities (l : List MultiSortItem) :
    (renumber l).map (fun s => s.priority) = List.range l.length := by
  unfold renumber
  rw [List.map_map]
  conv_rhs => rw [← List.enum_map_fst l]
  rfl

/-- A renumbered list always has dense priorities. -/
theorem renumber_dense (l : List MultiSortItem) : densePriorities (renumber l) := by
  unfold densePriorities
  rw [renumber_priorities, renumber_length]

/-- Appending a fresh column with priority = length preserves both
invariants. -/
theorem append_new_inv (l : List MultiSortItem) (it : MultiSortItem)
    (hnd : noDupCols l) (hdp : densePriorities l)
    (hcid : ∀ s ∈ l, s.columnId ≠ it.columnId) (hpri : it.priority = l.length) :
    noDupCols (l ++ [it]) ∧ densePriorities (l ++ [it]) := by
  constructor
  · unfold noDupCols at hnd ⊢
    rw [List.map_append]
    rw [List.nodup_append]
    refine ⟨hnd, by simp, ?_⟩
    intro x hx hx1
    simp only [List.map_cons, List.map_nil, List.mem_singleton] at hx1
    rcases List.mem_map.mp hx with ⟨s, hs, rfl⟩
    exact hcid s hs hx1
  · unfold densePriorities at hdp ⊢
    rw [List.map_append, hdp, List.length_append]
    simp [hpri, List.range_succ]

/-- `toggleSort` preserves no-duplicates and the cap; it preserves dense
priorities except on the eviction path (absent column, additive, at
capacity), where the resulting priorities are `1, 2, ..., maxSorts`. -/
theorem toggleSort_inv (maxSorts : Nat) (hmax : 0 < maxSorts)
    (cid ak : String) (dt : DataType) (additive : Bool) (l : List MultiSortItem)
    (hnd : noDupCols l) (hdp : densePriorities l) (hlen : l.length ≤ maxSorts) :
    noDupCols (toggleSort maxSorts cid ak dt additive l) ∧
    (toggleSort maxSorts cid ak dt additive l).length ≤ maxSorts ∧
    ((l.find? (fun s => s.columnId = cid) = none ∧ additive = true ∧ maxSorts ≤ l.length) →
      (toggleSort maxSorts cid ak dt additive l).map (fun s => s.priority) =
        List.range' 1 maxSorts) ∧
    (¬ (l.find? (fun s => s.columnId = cid) = none ∧ additive = true ∧ maxSorts ≤ l.length) →
      densePriorities (toggleSort maxSorts cid ak dt additive l)) := by
  rcases hfind : l.find? (fun s => s.columnId = cid) with _ | existing
  · have habs : ∀ s ∈ l, s.columnId ≠ cid := by
      intro s hs
      have := List.find?_eq_none.mp hfind s hs
      simpa using this
    cases additive with
    | false =>
      have heq : toggleSort maxSorts cid ak dt false l =
          [({ columnId := cid, accessorKey := ak, dataType := dt,
              direction := some SortDir.asc, priority := 0 } : MultiSortItem)] := by
        simp [toggleSort, hfind]
      rw [heq]
      refine ⟨by simp [noDupCols], by simpa using hmax, ?_, ?_⟩
      · rintro ⟨-, h, -⟩
        exact absurd h (by simp)
      · exact fun _ => rfl
    | true =>
      by_cases hcap : maxSorts ≤ l.length
      · have hlel : l.length = maxSorts := Nat.le_antisymm hlen hcap
        have heq : toggleSort maxSorts cid ak dt true l =
            l.drop 1 ++
              [({ columnId := cid, accessorKey := ak, dataType := dt,
                  direction := some SortDir.asc, priority := l.length } : MultiSortItem)] := by
          simp [toggleSort, hfind, hcap]
        rw [heq]
        refine ⟨?_, ?_, ?_, ?_⟩
        · unfold noDupCols
          rw [List.map_append, List.map_drop]
          rw [List.nodup_append]
          refine ⟨(List.drop_sublist 1 _).nodup hnd, by simp, ?_⟩
          intro x hx hx1
          simp only [List.map_cons, List.map_nil, List.mem_singleton] at hx1
          subst hx1
          have hxmem : x ∈ l.map (fun s => s.columnId) :=
            (List.drop_sublist 1 _).mem hx
          rcases List.mem_map.mp hxmem with ⟨s, hs, rfl⟩
          exact habs s hs rfl
        · simp only [List.length_append, List.length_drop, List.length_cons,
            List.length_nil]
          omega
        · intro _
          unfold densePriorities at hdp
          rw [List.map_append, List.map_drop, hdp]
          obtain ⟨m, hm⟩ : ∃ m, l.length = m + 1 := ⟨l.length - 1, by omega⟩
          rw [← hlel, hm]
          rw [List.range_succ_eq_map]
          rw [List.range'_eq_map_range]
          rw [List.range_succ, List.map_append]
          simp only [List.drop_succ_cons, List.drop_zero, List.map_cons, List.map_nil]
          congr 1
          · exact List.map_congr_left (fun a _ => by omega)
          · simp [Nat.add_comm]
        · rintro hncond
          exact absurd ⟨hfind, rfl, hcap⟩ hncond
      · have heq : toggleSort maxSorts cid ak dt true l =
            l ++
              [({ columnId := cid, accessorKey := ak, dataType := dt,
                  direction := some SortDir.asc, priority := l.length } : MultiSortItem)] := by
          simp [toggleSort, hfind, hcap]
        rw [heq]
        have h := append_new_inv l
          { columnId := cid, accessorKey := ak, dataType := dt,
            direction := some SortDir.asc, priority := l.length }
          hnd hdp (fun s hs => habs s hs) rfl
        refine ⟨h.1, ?_, ?_, fun _ => h.2⟩
        · simp only [List.length_append, List.length_cons, List.length_nil]
          omega
        · rintro ⟨-, -, hc⟩
          exact absurd hc hcap
  · have hnotnone : ¬ (l.find? (fun s => s.columnId = cid) = none ∧ additive = true ∧
        maxSorts ≤ l.length) := by
      rintro ⟨h, -, -⟩
      rw [hfind] at h
      exact absurd h (by simp)
    by_cases hdir : existing.direction = some SortDir.asc
    · have heq : toggleSort maxSorts cid ak dt additive l =
          l.map (fun s =>
            if s.columnId = cid then { s with direction := some SortDir.desc } else s) := by
        simp [toggleSort, hfind, hdir]
      rw [heq]
      have hcols2 :
          (l.map (fun s =>
              if s.columnId = cid then { s with direction := some SortDir.desc } else s)).map
              (fun s => s.columnId) = l.map (fun s => s.columnId) := by
        rw [List.map_map]
        exact List.map_congr_left (fun s _ => by by_cases h : s.columnId = cid <;> simp [h])
      have hpris2 :
          (l.map (fun s =>
              if s.columnId = cid then { s with direction := some SortDir.desc } else s)).map
              (fun s => s.priority) = l.map (fun s => s.priority) := by
        rw [List.map_map]
        exact List.map_congr_left (fun s _ => by by_cases h : s.columnId = cid <;> simp [h])
      refine ⟨?_, by simpa using hlen, fun hc => absurd hc hnotnone, ?_⟩
      · unfold noDupCols
        rw [hcols2]
        exact hnd
      · intro _
        unfold densePriorities
        rw [hpris2, List.length_map]
        exact hdp
    · have heq : toggleSort maxSorts cid ak dt additive l =
          renumber (l.filter (fun s => ¬ s.columnId = cid)) := by
        simp [toggleSort, hfind, hdir]
      rw [heq]
      have hnd2 : (l.map (fun s => s.columnId)).Nodup := hnd
      refine ⟨?_, ?_, fun hc => absurd hc hnotnone, fun _ => renumber_dense _⟩
      · unfold noDupCols
        rw [renumber_cols]
        exact ((List.filter_sublist l).map (fun s => s.columnId)).nodup hnd2
      · rw [renumber_length]
        exact le_trans (List.length_filter_le _ l) hlen

/-- `addSort` preserves all three invariants. -/
theorem addSort_inv (maxSorts : Nat)
    (cid ak : String) (dt : DataType) (dir : Option SortDir) (l : List MultiSortItem)
    (hnd : noDupCols l) (hdp : densePriorities l) (hlen : l.length ≤ maxSorts) :
    noDupCols (addSort maxSorts cid ak dt dir l) ∧
    (addSort maxSorts cid ak dt dir l).length ≤ maxSorts ∧
    densePriorities (addSort maxSorts cid ak dt dir l) := by
  rcases dir with _ | d
  · exact ⟨hnd, hlen, hdp⟩
  · by_cases hany : l.any (fun s => s.columnId = cid) = true
    · have heq : addSort maxSorts cid ak dt (some d) l = l := by
        simp [addSort, hany]
      rw [heq]
      exact ⟨hnd, hlen, hdp⟩
    · by_cases hcap : maxSorts ≤ l.length
      · have heq : addSort maxSorts cid ak dt (some d) l = l := by
          simp [addSort, hany, hcap]
        rw [heq]
        exact ⟨hnd, hlen, hdp⟩
      · have heq : addSort maxSorts cid ak dt (some d) l =
            l ++ [({ columnId := cid, accessorKey := ak, dataType := dt,
                     direction := some d, priority := l.length } : MultiSortItem)] := by
          simp [addSort, hany, hcap]
        rw [heq]
        have habs : ∀ s ∈ l, s.columnId ≠ cid := by
          intro s hs heq2
          exact hany (List.any_eq_true.mpr ⟨s, hs, by simp [heq2]⟩)
        have h := append_new_inv l
          { columnId := cid, accessorKey := ak, dataType := dt,
            direction := some d, priority := l.length }
          hnd hdp (fun s hs => habs s hs) rfl
        refine ⟨h.1, ?_, h.2⟩
        rw [List.length_append]
        simp only [List.length_cons, List.length_nil]
        omega

/-- `removeSort` preserves all three invariants. -/
theorem removeSort_inv (maxSorts : Nat) (cid : String) (l : List MultiSortItem)
    (hnd : noDupCols l) (hlen : l.length ≤ maxSorts) :
    noDupCols (removeSort cid l) ∧
    (removeSort cid l).length ≤ maxSorts ∧
    densePriorities (removeSort cid l) := by
  refine ⟨?_, ?_, renumber_dense _⟩
  · have hnd2 : (l.map (fun s => s.columnId)).Nodup := hnd
    unfold noDupCols removeSort
    rw [renumber_cols]
    exact ((List.filter_sublist l).map (fun s => s.columnId)).nodup hnd2
  · unfold removeSort
    rw [renumber_length]
    exact le_trans (List.length_filter_le _ l) hlen

/-- `moveSortPriority` permutes the list and renumbers, preserving all
three invariants. -/
theorem moveSortPriority_inv (maxSorts : Nat) (cid : String) (np : Nat)
    (l : List MultiSortItem)
    (hnd : noDupCols l) (hdp : densePriorities l) (hlen : l.length ≤ maxSorts) :
    noDupCols (moveSortPriority cid np l) ∧
    (moveSortPriority cid np l).length ≤ maxSorts ∧
    densePriorities (moveSortPriority cid np l) := by
  rcases hfind : l.findIdx? (fun s => s.columnId = cid) with _ | index
  · simp only [moveSortPriority, hfind]
    exact ⟨hnd, hlen, hdp⟩
  · rcases hget : l[index]? with _ | item
    · simp only [moveSortPriority, hfind, hget]
      exact ⟨hnd, hlen, hdp⟩
    · simp only [moveSortPriority, hfind, hget]
      obtain ⟨hidx, hitem⟩ := List.getElem?_eq_some.mp hget
      have hperm :
          (List.take np (l.take index ++ l.drop (index + 1)) ++ [item] ++
            List.drop np (l.take index ++ l.drop (index + 1))).Perm l := by
        have h1 : (List.take np (l.take index ++ l.drop (index + 1)) ++ [item] ++
            List.drop np (l.take index ++ l.drop (index + 1))).Perm
            (item :: (l.take index ++ l.drop (index + 1))) := by
          rw [List.append_assoc, List.singleton_append]
          exact (List.perm_middle).trans (by rw [List.take_append_drop])
        refine h1.trans ?_
        have h2 : l = l.take index ++ item :: l.drop (index + 1) := by
          conv_lhs => rw [← List.take_append_drop index l]
          rw [← List.getElem_cons_drop l index hidx, hitem]
        conv_rhs => rw [h2]
        exact List.perm_middle.symm
      have hnd2 : (l.map (fun s => s.columnId)).Nodup := hnd
      refine ⟨?_, ?_, renumber_dense _⟩
      · unfold noDupCols
        rw [renumber_cols]
        exact ((hperm.map (fun s => s.columnId)).nodup_iff).mpr hnd2
      · rw [renumber_length, hperm.length_eq]
        exact hlen

/-- C1 counterexample: at `count = 100`, `itemHeight = 25`,
`containerHeight = 100`, `scrollTop = 130`, `overscan = 2` the returned
window holds 9 items, exceeding the claimed bound
`ceil(viewportHeight/itemHeight) + 2*overscan = 4 + 4 = 8`: the code takes
`end = rawStart + rawVisibleCount + overscan` but clamps only `start`,
so the window spans `rawVisibleCount + 2*overscan + 1` indices. -/
theorem virtualizer_window_bound_violated :
    (computeVisibleRange 100 25 100 130 2).virtualItems.length = 9 ∧
    ¬ ((computeVisibleRange 100 25 100 130 2).virtualItems.length ≤
        cdiv 100 25 + 2 * 2) := by
  decide

/-- C1 (amended): for every `rowCount`, `itemHeight > 0`,
`viewportHeight ≥ 0`, `overscan ≥ 0` and `scrollOffset ≥ 0`, the returned
visible window has size at most `ceil(viewportHeight/itemHeight) +
2*overscan + 1` items, and the index of every returned virtual item lies
in `[0, rowCount)`. -/
theorem virtualizer_window_bounds (count itemHeight containerHeight scrollTop overscan : Nat)
    (hih : 0 < itemHeight) :
    (computeVisibleRange count itemHeight containerHeight scrollTop overscan).virtualItems.length ≤
      cdiv containerHeight itemHeight + 2 * overscan + 1 ∧
    ∀ it ∈ (computeVisibleRange count itemHeight containerHeight scrollTop overscan).virtualItems,
      it.index < count := by
  unfold computeVisibleRange
  split
  · simp
  · rename_i hdeg
    push_neg at hdeg
    obtain ⟨hch, hcount, _⟩ := hdeg
    simp only [List.length_map, List.length_range', List.mem_map]
    constructor
    · have hle : scrollTop / itemHeight - overscan ≤ scrollTop / itemHeight := Nat.sub_le _ _
      omega
    · rintro it ⟨i, hi, rfl⟩
      rw [List.mem_range'_1] at hi
      dsimp only
      omega

/-- Closed witness for `virtualizer_window_bounds` at a concrete input. -/
theorem virtualizer_window_bounds_witness :
    (computeVisibleRange 100 25 100 130 2).virtualItems.length ≤ cdiv 100 25 + 2 * 2 + 1 ∧
    ∀ it ∈ (computeVisibleRange 100 25 100 130 2).virtualItems, it.index < 100 :=
  virtualizer_window_bounds 100 25 100 130 2 (by decide)

/-- C7: for positive `rowCount`, `itemHeight` and `viewportHeight` the
virtualizer computes `startIndex = max(0, floor(scrollOffset/itemHeight) -
overscan)` and `endIndex = min(rowCount - 1,
floor(scrollOffset/itemHeight) + ceil(viewportHeight/itemHeight) +
overscan)`; for the degenerate inputs (`rowCount = 0` or non-positive
item/viewport height) it returns an empty window. -/
theorem virtualizer_formulas (count itemHeight containerHeight scrollTop overscan : Nat) :
    (0 < count → 0 < itemHeight → 0 < containerHeight →
      ((computeVisibleRange count itemHeight containerHeight scrollTop overscan).startIndex : Int) =
        max 0 ((scrollTop / itemHeight : Nat) - (overscan : Int)) ∧
      (computeVisibleRange count itemHeight containerHeight scrollTop overscan).endIndex =
        min (count - 1) (scrollTop / itemHeight + cdiv containerHeight itemHeight + overscan)) ∧
    (count = 0 ∨ itemHeight = 0 ∨ containerHeight = 0 →
      (computeVisibleRange count itemHeight containerHeight scrollTop overscan).virtualItems = [] ∧
      (computeVisibleRange count itemHeight containerHeight scrollTop overscan).visibleCount = 0) := by
  constructor
  · intro hc hih hch
    unfold computeVisibleRange
    split
    · omega
    · constructor
      · simp only
        omega
      · rfl
  · intro hdeg
    unfold computeVisibleRange
    split
    · exact ⟨rfl, rfl⟩
    · omega

/-- Closed witness for `virtualizer_formulas` at a concrete input. -/
theorem virtualizer_formulas_witness :
    ((computeVisibleRange 10 25 100 130 2).startIndex : Int) =
      max 0 ((130 / 25 : Nat) - (2 : Int)) ∧
    (computeVisibleRange 10 25 100 130 2).endIndex =
      min (10 - 1) (130 / 25 + cdiv 100 25 + 2) :=
  (virtualizer_formulas 10 25 100 130 2).1 (by decide) (by decide) (by decide)

/-- C2 counterexample: with the default cap `maxSorts = 3`, additively
toggling columns a, b, c from the empty state yields a valid state with
dense priorities `[0, 1, 2]`, but a fourth additive toggle (column d)
takes the eviction path, which drops the oldest entry WITHOUT shifting
the survivors' priorities: the result has priorities `[1, 2, 3]`, not
`[0, 1, 2]`. -/
theorem toggleSort_eviction_not_dense :
    densePriorities
      (toggleSort 3 ("c") ("c") DataType.string true
        (toggleSort 3 ("b") ("b") DataType.string true
          (toggleSort 3 ("a") ("a") DataType.string true []))) ∧
    noDupCols
      (toggleSort 3 ("c") ("c") DataType.string true
        (toggleSort 3 ("b") ("b") DataType.string true
          (toggleSort 3 ("a") ("a") DataType.string true []))) ∧
    (toggleSort 3 ("d") ("d") DataType.string true
        (toggleSort 3 ("c") ("c") DataType.string true
          (toggleSort 3 ("b") ("b") DataType.string true
            (toggleSort 3 ("a") ("a") DataType.string true [])))).map
        (fun s => s.priority) = [1, 2, 3] ∧
    ¬ densePriorities
      (toggleSort 3 ("d") ("d") DataType.string true
        (toggleSort 3 ("c") ("c") DataType.string true
          (toggleSort 3 ("b") ("b") DataType.string true
            (toggleSort 3 ("a") ("a") DataType.string true [])))) := by
  refine ⟨by decide, by decide, by decide, by decide⟩

/-- C2 (amended): starting from a sort list with no duplicate column ids,
dense priorities and length within the positive cap, every Multi-Sort
Engine operation (toggleSort, addSort, removeSort, moveSortPriority)
preserves no-duplicates and the cap; priorities stay dense `[0..n-1]`
after addSort, removeSort, moveSortPriority and after every toggleSort
except its eviction path (absent column, additive, at the cap), where the
oldest entry is evicted but the remaining priorities are NOT shifted: the
result's priorities are `[1..maxSorts]`.  In particular removal of a
present descending column compacts priorities to remain dense. -/
theorem multiSort_ops_invariants (maxSorts : Nat) (hmax : 0 < maxSorts)
    (cid ak : String) (dt : DataType) (dir : Option SortDir) (additive : Bool)
    (np : Nat) (l : List MultiSortItem)
    (hnd : noDupCols l) (hdp : densePriorities l) (hlen : l.length ≤ maxSorts) :
    (noDupCols (toggleSort maxSorts cid ak dt additive l) ∧
      (toggleSort maxSorts cid ak dt additive l).length ≤ maxSorts ∧
      ((l.find? (fun s => s.columnId = cid) = none ∧ additive = true ∧
          maxSorts ≤ l.length) →
        (toggleSort maxSorts cid ak dt additive l).map (fun s => s.priority) =
          List.range' 1 maxSorts) ∧
      (¬ (l.find? (fun s => s.columnId = cid) = none ∧ additive = true ∧
          maxSorts ≤ l.length) →
        densePriorities (toggleSort maxSorts cid ak dt additive l))) ∧
    (noDupCols (addSort maxSorts cid ak dt dir l) ∧
      (addSort maxSorts cid ak dt dir l).length ≤ maxSorts ∧
      densePriorities (addSort maxSorts cid ak dt dir l)) ∧
    (noDupCols (removeSort cid l) ∧
      (removeSort cid l).length ≤ maxSorts ∧
      densePriorities (removeSort cid l)) ∧
    (noDupCols (moveSortPriority cid np l) ∧
      (moveSortPriority cid np l).length ≤ maxSorts ∧
      densePriorities (moveSortPriority cid np l)) :=
  ⟨toggleSort_inv maxSorts hmax cid ak dt additive l hnd hdp hlen,
   addSort_inv maxSorts cid ak dt dir l hnd hdp hlen,
   removeSort_inv maxSorts cid l hnd hlen,
   moveSortPriority_inv maxSorts cid np l hnd hdp hlen⟩

/-- Closed witness for `multiSort_ops_invariants` at a concrete input:
one ascending entry for column a, cap 3, toggling / adding / removing /
moving column b. -/
theorem multiSort_ops_invariants_witness :
    noDupCols (addSort 3 ("b") ("b") DataType.number (some SortDir.desc)
      [({ columnId := ("a"), accessorKey := ("a"), dataType := DataType.string,
          direction := some SortDir.asc, priority := 0 } : MultiSortItem)]) ∧
    (addSort 3 ("b") ("b") DataType.number (some SortDir.desc)
      [({ columnId := ("a"), accessorKey := ("a"), dataType := DataType.string,
          direction := some SortDir.asc, priority := 0 } : MultiSortItem)]).length ≤ 3 ∧
    densePriorities (addSort 3 ("b") ("b") DataType.number (some SortDir.desc)
      [({ columnId := ("a"), accessorKey := ("a"), dataType := DataType.string,
          direction := some SortDir.asc, priority := 0 } : MultiSortItem)]) :=
  (multiSort_ops_invariants 3 (by decide) ("b") ("b") DataType.number
    (some SortDir.desc) true 0
    [({ columnId := ("a"), accessorKey := ("a"), dataType := DataType.string,
        direction := some SortDir.asc, priority := 0 } : MultiSortItem)]
    (by decide) (by decide) (by decide)).2.1

/-- Transfer of the selection invariant along equal mode and ids. -/
theorem selInvariant_of_eq (s t : GridState)
    (hmode : t.selection.mode = s.selection.mode)
    (hids : t.selection.selectedRowIds = s.selection.selectedRowIds)
    (h : selInvariant s) : selInvariant t := by
  obtain ⟨h0, h1⟩ := h
  constructor
  · intro hc
    rw [hids]
    rw [hmode] at hc
    exact h0 hc
  · intro hc
    rw [hids]
    rw [hmode] at hc
    exact h1 hc

/-- Every `gridReducer` step preserves the selection-mode invariant. -/
theorem gridReducer_sel_step (s : GridState) (a : GridAction) (h : selInvariant s) :
    selInvariant (gridReducer s a) := by
  obtain ⟨h0, h1⟩ := h
  cases a with
  | selectRow rowId multi =>
    simp only [gridReducer]
    split
    · exact ⟨h0, h1⟩
    · rename_i hm
      split
      · refine ⟨fun hc => ?_, fun _ => ?_⟩
        · exact absurd hc hm
        · simp [setAdd]
      · rename_i hcond
        push_neg at hcond
        obtain ⟨hns, -⟩ := hcond
        split
        · exact ⟨fun hc => absurd hc hm, fun hc => absurd hc hns⟩
        · exact ⟨fun hc => absurd hc hm, fun hc => absurd hc hns⟩
  | deselectRow rowId =>
    refine ⟨fun hc => ?_, fun hc => ?_⟩
    · have hids : s.selection.selectedRowIds = [] := h0 hc
      show setDelete s.selection.selectedRowIds rowId = []
      rw [hids]
      rfl
    · show (setDelete s.selection.selectedRowIds rowId).length ≤ 1
      exact le_trans (List.length_filter_le _ _) (h1 hc)
  | selectAll rowIds =>
    simp only [gridReducer]
    split
    · exact ⟨h0, h1⟩
    · rename_i hm
      push_neg at hm
      refine ⟨fun hc => ?_, fun hc => ?_⟩
      · rw [show ({ s with selection := { s.selection with
            selectedRowIds := setFromArray rowIds } } : GridState).selection.mode =
            s.selection.mode from rfl, hm] at hc
        exact absurd hc (by decide)
      · rw [show ({ s with selection := { s.selection with
            selectedRowIds := setFromArray rowIds } } : GridState).selection.mode =
            s.selection.mode from rfl, hm] at hc
        exact absurd hc (by decide)
  | deselectAll =>
    exact ⟨fun _ => rfl, fun _ => by simp [gridReducer]⟩
  | sortSet p => exact selInvariant_of_eq s _ rfl rfl ⟨h0, h1⟩
  | sortToggle c => exact selInvariant_of_eq s _ rfl rfl ⟨h0, h1⟩
  | sortClear => exact selInvariant_of_eq s _ rfl rfl ⟨h0, h1⟩
  | selectRange a b c => exact selInvariant_of_eq s _ rfl rfl ⟨h0, h1⟩
  | setActiveCell c => exact selInvariant_of_eq s _ rfl rfl ⟨h0, h1⟩
  | selectCell c => exact selInvariant_of_eq s _ rfl rfl ⟨h0, h1⟩
  | selectCellRange a b => exact selInvariant_of_eq s _ rfl rfl ⟨h0, h1⟩
  | editStart c v => exact selInvariant_of_eq s _ rfl rfl ⟨h0, h1⟩
  | editChange v => exact selInvariant_of_eq s _ rfl rfl ⟨h0, h1⟩
  | editCancel => exact selInvariant_of_eq s _ rfl rfl ⟨h0, h1⟩
  | filterRemove c => exact selInvariant_of_eq s _ rfl rfl ⟨h0, h1⟩
  | filterClear => exact selInvariant_of_eq s _ rfl rfl ⟨h0, h1⟩
  | setFocusedCell c => exact selInvariant_of_eq s _ rfl rfl ⟨h0, h1⟩
  | setScrolling b => exact selInvariant_of_eq s _ rfl rfl ⟨h0, h1⟩
  | editCommit rowId columnId now =>
    simp only [gridReducer]
    split
    · exact ⟨h0, h1⟩
    · exact selInvariant_of_eq s _ rfl rfl ⟨h0, h1⟩
  | editUndo =>
    simp only [gridReducer]
    split
    · exact ⟨h0, h1⟩
    · exact selInvariant_of_eq s _ rfl rfl ⟨h0, h1⟩
  | editRedo =>
    simp only [gridReducer]
    split
    · exact ⟨h0, h1⟩
    · exact selInvariant_of_eq s _ rfl rfl ⟨h0, h1⟩
  | filterSet p =>
    simp only [gridReducer]
    split
    · exact selInvariant_of_eq s _ rfl rfl ⟨h0, h1⟩
    · exact selInvariant_of_eq s _ rfl rfl ⟨h0, h1⟩
  | setColumnWidth c w =>
    simp only [gridReducer]
    split
    · exact selInvariant_of_eq s _ rfl rfl ⟨h0, h1⟩
    · exact selInvariant_of_eq s _ rfl rfl ⟨h0, h1⟩

/-- C8: for every sequence of grid actions applied by the reducer from a
state satisfying the selection invariant, the invariant is preserved:
under mode `single` at most one row id is ever selected, under mode
`none` the selected-id set stays empty (every action, including
SELECT_ROW, SELECT_ALL, SELECT_RANGE and DESELECT_ROW, preserves it). -/
theorem selection_mode_invariants (acts : List GridAction) (s : GridState)
    (h : selInvariant s) : selInvariant (acts.foldl gridReducer s) := by
  induction acts generalizing s with
  | nil => exact h
  | cons a rest ih => exact ih (gridReducer s a) (gridReducer_sel_step s a h)

/-- Closed witness for `selection_mode_invariants`: a single-mode state
run through a selection-heavy action sequence. -/
theorem selection_mode_invariants_witness :
    selInvariant
      (([GridAction.selectRow (RowId.num 1) true,
         GridAction.selectAll [RowId.num 1, RowId.num 2],
         GridAction.selectRow (RowId.num 2) false,
         GridAction.deselectRow (RowId.num 1),
         GridAction.selectCellRange
           { rowIndex := 0, columnId := ("a") } { rowIndex := 2, columnId := ("a") },
         GridAction.deselectAll]).foldl gridReducer
        (createInitialGridState Option.none Option.none SelectionMode.single)) :=
  selection_mode_invariants _ _ (by decide)

/-- C3 counterexample: from a state with an active edit session on cell
(0, a), dispatching EDIT_START for the different cell (1, b) is NOT
rejected — the reducer unconditionally replaces the session with the new
cell. -/
theorem editStart_conflict_not_rejected :
    (gridReducer (createInitialGridState Option.none Option.none SelectionMode.multiple)
        (GridAction.editStart { rowIndex := 0, columnId := ("a") }
          (CellValue.num (JSNum.val 1)))).edit.cell =
      some { rowIndex := 0, columnId := ("a") } ∧
    (gridReducer
        (gridReducer (createInitialGridState Option.none Option.none SelectionMode.multiple)
          (GridAction.editStart { rowIndex := 0, columnId := ("a") }
            (CellValue.num (JSNum.val 1))))
        (GridAction.editStart { rowIndex := 1, columnId := ("b") }
          (CellValue.num (JSNum.val 2)))).edit.cell =
      some { rowIndex := 1, columnId := ("b") } := by
  exact ⟨rfl, rfl⟩

/-- C3 (amended): EDIT_START is never rejected: for every state — also
one with an active edit for a different cell — it replaces the edit
session, snapshotting the payload value as both originalValue and
currentValue with isDirty = false, and leaves the rest of the state
unchanged. -/
theorem editStart_always_replaces (s : GridState) (cell : CellCoordinate) (v : CellValue) :
    (gridReducer s (GridAction.editStart cell v)).edit =
      { isEditing := true, cell := some cell, originalValue := v,
        currentValue := v, isDirty := false } ∧
    (gridReducer s (GridAction.editStart cell v)).selection = s.selection ∧
    (gridReducer s (GridAction.editStart cell v)).editHistory = s.editHistory ∧
    (gridReducer s (GridAction.editStart cell v)).historyIndex = s.historyIndex :=
  ⟨rfl, rfl, rfl, rfl⟩

/-- C10: the `commitEdit` wrapper invokes `onCellChange` exactly when the
edit state's currentValue is not `undefined` — in particular with no
active session (currentValue and originalValue `null`) it still reports
`(rowId, columnId, null, null)` while the reducer treats the commit as a
no-op. -/
theorem commitEdit_callback_behavior (s : GridState) (rowId : RowId)
    (columnId : String) (now : Nat) :
    (¬ s.edit.currentValue = CellValue.undef →
      (commitEdit s rowId columnId now).1 =
        some (rowId, columnId, s.edit.currentValue, s.edit.originalValue)) ∧
    (s.edit.currentValue = CellValue.undef →
      (commitEdit s rowId columnId now).1 = Option.none) ∧
    (s.edit.isEditing = false → (commitEdit s rowId columnId now).2 = s) := by
  refine ⟨fun hc => ?_, fun hc => ?_, fun hc => ?_⟩
  · simp [commitEdit, commitEditCall, hc]
  · simp [commitEdit, commitEditCall, hc]
  · simp [commitEdit, gridReducer, hc]

/-- Closed witness for `commitEdit_callback_behavior`: committing at the
freshly initialized state (no active edit, currentValue `null`) reports
`(rowId, columnId, null, null)` and leaves the state unchanged. -/
theorem commitEdit_callback_behavior_witness :
    (commitEdit (createInitialGridState Option.none Option.none SelectionMode.multiple)
        (RowId.num 2) ("salary") 0).1 =
      some (RowId.num 2, ("salary"), CellValue.null, CellValue.null) ∧
    (commitEdit (createInitialGridState Option.none Option.none SelectionMode.multiple)
        (RowId.num 2) ("salary") 0).2 =
      createInitialGridState Option.none Option.none SelectionMode.multiple :=
  ⟨(commitEdit_callback_behavior _ _ _ _).1 (by decide),
   (commitEdit_callback_behavior _ _ _ _).2.2 (by decide)⟩

/-- C6: after pushing three actions under batch id b and a fourth
unbatched action, the first `undo` reports only the fourth action and
moves the cursor by one (3 to 2); the second `undo` locates the whole
batched run and reports a3, a2, a1 in reverse chronological order in one
call, moving the cursor past the entire run (to -1). -/
theorem undo_batch_scenario :
    ((historyUndo
        (pushAction 50 Option.none 4 ("cell-edit") ("a4") 3 4
          (pushAction 50 (some ("b")) 3 ("cell-edit") ("a3") 2 3
            (pushAction 50 (some ("b")) 2 ("cell-edit") ("a2") 1 2
              (pushAction 50 (some ("b")) 1 ("cell-edit") ("a1") 0 1
                initialHistory))))).2.1).map (fun a => a.description) = [("a4")] ∧
    (historyUndo
        (pushAction 50 Option.none 4 ("cell-edit") ("a4") 3 4
          (pushAction 50 (some ("b")) 3 ("cell-edit") ("a3") 2 3
            (pushAction 50 (some ("b")) 2 ("cell-edit") ("a2") 1 2
              (pushAction 50 (some ("b")) 1 ("cell-edit") ("a1") 0 1
                initialHistory))))).1.historyIndex = 2 ∧
    ((historyUndo (historyUndo
        (pushAction 50 Option.none 4 ("cell-edit") ("a4") 3 4
          (pushAction 50 (some ("b")) 3 ("cell-edit") ("a3") 2 3
            (pushAction 50 (some ("b")) 2 ("cell-edit") ("a2") 1 2
              (pushAction 50 (some ("b")) 1 ("cell-edit") ("a1") 0 1
                initialHistory))))).1).2.1).map (fun a => a.description) =
      [("a3"), ("a2"), ("a1")] ∧
    (historyUndo (historyUndo
        (pushAction 50 Option.none 4 ("cell-edit") ("a4") 3 4
          (pushAction 50 (some ("b")) 3 ("cell-edit") ("a3") 2 3
            (pushAction 50 (some ("b")) 2 ("cell-edit") ("a2") 1 2
              (pushAction 50 (some ("b")) 1 ("cell-edit") ("a1") 0 1
                initialHistory))))).1).1.historyIndex = -1 := by
  refine ⟨by decide, by decide, by decide, by decide⟩

/-- C9 counterexample: with no active cell, Enter (an edit-triggering
key) does NOT establish the active cell at (0, first visible column) —
it leaves the active cell unset and forwards the edit-start request
unconditionally. -/
theorem enter_without_active_cell_starts_edit :
    (onKeyDown true false 2 [{ id := ("a"), visible := Option.none }] Option.none 10
      Key.enter false false).activeCell = Option.none ∧
    (onKeyDown true false 2 [{ id := ("a"), visible := Option.none }] Option.none 10
      Key.enter false false).startEditReq = true := by
  exact ⟨rfl, rfl⟩

/-- C9 (amended): when no cell is active and at least one column is
visible, every navigation key (arrows, Tab, PageUp/PageDown) establishes
the active cell at (rowIndex 0, first visible column) without starting an
edit; the edit-triggering keys Enter/F2 do NOT establish an active cell —
they leave it unset and request edit-start unconditionally. -/
theorem keyboardNav_first_key (rowCount : Nat) (columns : List NavColumn)
    (pageSize : Nat) (shiftKey ctrlMeta : Bool) (cid0 : String)
    (hfirst : colIdAt (visibleColumns columns) 0 = some cid0) :
    (∀ key ∈ ([Key.arrowUp, Key.arrowDown, Key.arrowLeft, Key.arrowRight, Key.tab,
        Key.pageUp, Key.pageDown] : List Key),
      (onKeyDown true false rowCount columns Option.none pageSize key
          shiftKey ctrlMeta).activeCell = some { rowIndex := 0, columnId := cid0 } ∧
      (onKeyDown true false rowCount columns Option.none pageSize key
          shiftKey ctrlMeta).startEditReq = false) ∧
    (∀ key ∈ ([Key.enter, Key.f2] : List Key),
      (onKeyDown true false rowCount columns Option.none pageSize key
          shiftKey ctrlMeta).activeCell = Option.none ∧
      (onKeyDown true false rowCount columns Option.none pageSize key
          shiftKey ctrlMeta).startEditReq = true) := by
  constructor
  · intro key hk
    fin_cases hk <;> constructor <;> simp [onKeyDown, moveCell, hfirst]
  · intro key hk
    fin_cases hk <;> exact ⟨rfl, rfl⟩

/-- Closed witness for `keyboardNav_first_key`: ArrowDown with no active
cell over one visible column activates (0, a). -/
theorem keyboardNav_first_key_witness :
    (onKeyDown true false 2 [{ id := ("a"), visible := Option.none }] Option.none 10
      Key.arrowDown false false).activeCell =
        some { rowIndex := 0, columnId := ("a") } ∧
    (onKeyDown true false 2 [{ id := ("a"), visible := Option.none }] Option.none 10
      Key.arrowDown false false).startEditReq = false :=
  (keyboardNav_first_key 2 [{ id := ("a"), visible := Option.none }] 10 false false
    ("a") (by decide)).1 Key.arrowDown (by decide)

/-- C4 counterexample: under the `number` type and DESCENDING direction,
a NaN-parsing value sorts FIRST, not last: `createComparator` multiplies
the NaN placement of `compareNumbers` by the direction sign, so
(abc, 1) compares -1 under desc (abc before 1) while it is +1 (last)
under asc; unparsable dates behave the same way. -/
theorem comparator_nan_desc_counterexample :
    createComparator trivEnv DataType.number (some SortDir.desc)
      (CellValue.str ("abc")) (CellValue.num (JSNum.val 1)) = -1 ∧
    createComparator trivEnv DataType.number (some SortDir.asc)
      (CellValue.str ("abc")) (CellValue.num (JSNum.val 1)) = 1 ∧
    createComparator trivEnv DataType.date (some SortDir.desc)
      (CellValue.str ("not-a-date")) (CellValue.num (JSNum.val 0)) = -1 := by
  refine ⟨?_, ?_, ?_⟩
  · simp [createComparator, typeCompare, compareNumbers, jsToNumber, jsToString,
      isNullish, trivEnv]
  · simp [createComparator, typeCompare, compareNumbers, jsToNumber, jsToString,
      isNullish, trivEnv]
  · simp [createComparator, typeCompare, compareDates, dateKey, jsToString,
      isNullish, trivEnv]

/-- C4 (amended): for every runtime environment, data type and direction,
null/undefined sort to the end in BOTH directions (the direction
multiplier applies only to the defined-value comparison, which it exactly
negates); by contrast NaN-parsing numbers and unparsable dates sort last
only under ascending direction and first under descending, because their
placement sign is multiplied by the direction. -/
theorem comparator_null_nan_placement (env : JSEnv) (dt : DataType)
    (dir : Option SortDir) (a b : CellValue) :
    (isNullish a = true → isNullish b = false → createComparator env dt dir a b = 1) ∧
    (isNullish a = false → isNullish b = true → createComparator env dt dir a b = -1) ∧
    (isNullish a = true → isNullish b = true → createComparator env dt dir a b = 0) ∧
    (isNullish a = false → isNullish b = false →
      createComparator env dt (some SortDir.desc) a b =
        -(createComparator env dt (some SortDir.asc) a b)) ∧
    (isNullish a = false → isNullish b = false →
      jsToNumber env a = JSNum.nan → ¬ jsToNumber env b = JSNum.nan →
      createComparator env DataType.number (some SortDir.asc) a b = 1 ∧
      createComparator env DataType.number (some SortDir.desc) a b = -1) ∧
    (isNullish a = false → isNullish b = false →
      dateKey env a = JSNum.nan → ¬ dateKey env b = JSNum.nan →
      createComparator env DataType.date (some SortDir.asc) a b = 1 ∧
      createComparator env DataType.date (some SortDir.desc) a b = -1) := by
  refine ⟨?_, ?_, ?_, ?_, ?_, ?_⟩
  · intro h1 h2
    simp [createComparator, h1, h2]
  · intro h1 h2
    simp [createComparator, h1, h2]
  · intro h1 h2
    simp [createComparator, h1, h2]
  · intro h1 h2
    simp [createComparator, h1, h2]
  · intro h1 h2 hna hnb
    rcases hb : jsToNumber env b with _ | q
    · exact absurd hb hnb
    · constructor <;> simp [createComparator, typeCompare, compareNumbers, h1, h2, hna, hb]
  · intro h1 h2 hna hnb
    rcases hb : dateKey env b with _ | q
    · exact absurd hb hnb
    · constructor <;> simp [createComparator, typeCompare, compareDates, h1, h2, hna, hb]

/-- Closed witness for `comparator_null_nan_placement`: a null always
sorts after a defined number, under both directions. -/
theorem comparator_null_nan_placement_witness :
    createComparator trivEnv DataType.number (some SortDir.desc)
      CellValue.null (CellValue.num (JSNum.val 1)) = 1 ∧
    createComparator trivEnv DataType.number (some SortDir.asc)
      CellValue.null (CellValue.num (JSNum.val 1)) = 1 :=
  ⟨(comparator_null_nan_placement trivEnv DataType.number (some SortDir.desc)
      CellValue.null (CellValue.num (JSNum.val 1))).1 (by decide) (by decide),
   (comparator_null_nan_placement trivEnv DataType.number (some SortDir.asc)
      CellValue.null (CellValue.num (JSNum.val 1))).1 (by decide) (by decide)⟩

/-- C5: provided the runtime's locale string comparison obeys the
comparator sign laws (as `localeCompare` does), `sortData` is stable
(rows comparing equal under the composite comparator keep their relative
order: any equal pair that is a sublist of the input is a sublist of the
output), idempotent under a fixed sort spec, and returns a permutation of
the input (the input sequence itself is never mutated: the source copies
with `[...data]` before sorting, and the embedding is a pure function of
the input). -/
theorem sortData_props (env : JSEnv) (hstr : IsCmp env.strCmp) :
    (∀ (sorts : List MultiSortItem) (data : List Row) (a b : Row),
      lexCompare ((sorts.map toSpec).map (specComparator env)) a b = 0 →
      [a, b].Sublist data →
      [a, b].Sublist (sortDataJS env sorts data)) ∧
    (∀ (sorts : List MultiSortItem) (data : List Row),
      sortDataJS env sorts (sortDataJS env sorts data) = sortDataJS env sorts data) ∧
    (∀ (sorts : List MultiSortItem) (data : List Row),
      (sortDataJS env sorts data).Perm data) := by
  have hcomp : ∀ (specs : List SortSpec),
      IsCmp (lexCompare (specs.map (specComparator env))) := by
    intro specs
    apply lexCompare_isCmp
    intro c hcmem
    rcases List.mem_map.mp hcmem with ⟨s, hs, rfl⟩
    exact isCmp_precomp (createComparator env s.dataType s.direction)
      (fun r => rowGet r s.accessorKey)
      (createComparator_isCmp env s.dataType s.direction hstr)
  have htrans : ∀ (specs : List SortSpec) (a b d : Row),
      (fun a b => decide (lexCompare (specs.map (specComparator env)) a b ≤ 0)) a b →
      (fun a b => decide (lexCompare (specs.map (specComparator env)) a b ≤ 0)) b d →
      (fun a b => decide (lexCompare (specs.map (specComparator env)) a b ≤ 0)) a d := by
    intro specs a b d h1 h2
    simp only [decide_eq_true_eq] at h1 h2 ⊢
    have hic := hcomp specs
    rcases lt_or_eq_of_le h1 with h1l | h1e <;> rcases lt_or_eq_of_le h2 with h2l | h2e
    · exact le_of_lt (hic.trans_lt a b d h1l h2l)
    · exact le_of_lt (hic.lt_eq a b d h1l h2e)
    · exact le_of_lt (hic.eq_lt a b d h1e h2l)
    · exact le_of_eq (hic.trans_eq a b d h1e h2e)
  have htotal : ∀ (specs : List SortSpec) (a b : Row),
      ((fun a b => decide (lexCompare (specs.map (specComparator env)) a b ≤ 0)) a b ||
       (fun a b => decide (lexCompare (specs.map (specComparator env)) a b ≤ 0)) b a) = true := by
    intro specs a b
    have hic := hcomp specs
    by_cases hle : lexCompare (specs.map (specComparator env)) a b ≤ 0
    · simp [hle]
    · have hpos : 0 < lexCompare (specs.map (specComparator env)) a b := lt_of_not_le hle
      have hneg := (hic.flip a b).mp hpos
      simp [le_of_lt hneg]
  refine ⟨?_, ?_, ?_⟩
  · intro sorts data a b hz hsub
    by_cases hlen : sorts.length = 0
    · simpa [sortDataJS, hlen] using hsub
    · have hlen2 : ¬ (sorts.map toSpec).length = 0 := by simpa using hlen
      simp only [sortDataJS, hlen, if_neg, multiSortJS, hlen2, if_false]
      exact List.pair_sublist_mergeSort (htrans (sorts.map toSpec))
        (htotal (sorts.map toSpec)) (decide_eq_true (le_of_eq hz)) hsub
  · intro sorts data
    by_cases hlen : sorts.length = 0
    · simp [sortDataJS, hlen]
    · have hlen2 : ¬ (sorts.map toSpec).length = 0 := by simpa using hlen
      simp only [sortDataJS, hlen, if_neg, multiSortJS, hlen2, if_false]
      exact List.mergeSort_of_sorted
        (List.sorted_mergeSort (htrans (sorts.map toSpec)) (htotal (sorts.map toSpec)) data)
  · intro sorts data
    by_cases hlen : sorts.length = 0
    · simp [sortDataJS, hlen]
    · have hlen2 : ¬ (sorts.map toSpec).length = 0 := by simpa using hlen
      simp only [sortDataJS, hlen, if_neg, multiSortJS, hlen2, if_false]
      exact List.mergeSort_perm data _

/-- Closed witness for `sortData_props`: idempotence and permutation on a
concrete two-row data set sorted by a numeric column. -/
theorem sortData_props_witness :
    sortDataJS trivEnv
        [{ columnId := ("a"), accessorKey := ("a"), dataType := DataType.number,
           direction := some SortDir.asc, priority := 0 }]
        (sortDataJS trivEnv
          [{ columnId := ("a"), accessorKey := ("a"), dataType := DataType.number,
             direction := some SortDir.asc, priority := 0 }]
          [([(("a"), CellValue.num (JSNum.val 2))] : Row),
           ([(("a"), CellValue.num (JSNum.val 1))] : Row)]) =
      sortDataJS trivEnv
        [{ columnId := ("a"), accessorKey := ("a"), dataType := DataType.number,
           direction := some SortDir.asc, priority := 0 }]
        [([(("a"), CellValue.num (JSNum.val 2))] : Row),
         ([(("a"), CellValue.num (JSNum.val 1))] : Row)] ∧
    (sortDataJS trivEnv
        [{ columnId := ("a"), accessorKey := ("a"), dataType := DataType.number,
           direction := some SortDir.asc, priority := 0 }]
        [([(("a"), CellValue.num (JSNum.val 2))] : Row),
         ([(("a"), CellValue.num (JSNum.val 1))] : Row)]).Perm
      [([(("a"), CellValue.num (JSNum.val 2))] : Row),
       ([(("a"), CellValue.num (JSNum.val 1))] : Row)] := by
  have hstr0 : IsCmp trivEnv.strCmp := by
    constructor <;> intros <;> simp_all [trivEnv]
  exact ⟨(sortData_props trivEnv hstr0).2.1 _ _, (sortData_props trivEnv hstr0).2.2 _ _⟩

end GridCols
